import Mathlib

/-!
# Session authentication guard — verification of the remember-me token protocol

Shallow embedding of the `SessionGuard` class (`src/session/guard.ts`) together
with the remember-me token value object and the token-persistence provider it
relies on. Stateful code is embedded as explicit state passing over a `World`
record; thrown exceptions become the `Except` error channel; every observable
side effect (session reads/writes, provider I/O, cookies, emitted events) is
appended to an effect trace so that ordering and I/O-count properties are
expressible. Timestamps are integers in milliseconds, matching JavaScript
`Date` arithmetic.
-/

namespace SessionAuth

/-- Lifecycle events emitted by the guard (`SessionGuardEvents` in
`guards/session/types.ts`), with the payload components the model tracks:
session id, user id and, for successes, the series of the remember-me token
that was used or minted (if any). -/
inductive AuthEvent where
  | authenticationAttempted (sessionId : Nat)
  | authenticationSucceeded (sessionId : Nat) (userId : Nat) (tokenSeries : Option String)
  | authenticationFailed (sessionId : Nat)
  | loginAttempted (userId : Nat)
  | loginSucceeded (userId : Nat) (sessionId : Nat) (tokenSeries : Option String)
  | loggedOut (userId : Option Nat) (sessionId : Nat)
  deriving Repr, DecidableEq

/-- Errors the guard can raise. `invalidAuthSession` models
`AuthenticationException.E_INVALID_AUTH_SESSION`, `invalidAuthToken` models
`E_INVALID_AUTH_TOKEN` (the other `AuthenticationException` kind), and
`runtimeException` models `RuntimeException` from `@poppinss/utils`
(configuration errors). -/
inductive AuthError where
  | invalidAuthSession
  | invalidAuthToken
  | runtimeException (message : String)
  deriving Repr, DecidableEq

/-- `error instanceof AuthenticationException` — the check performed by
`check()`: true exactly for the two auth-failure kinds. -/
def AuthError.isAuthException : AuthError → Bool
  | .invalidAuthSession => true
  | .invalidAuthToken => true
  | .runtimeException _ => false

/-- Message of the `RuntimeException` thrown by `#getSession` when the
session middleware is not configured. -/
def sessionConfigMessage : String :=
  "Cannot login user. Make sure you have installed the session package and configured its middleware"

/-- Message of the `RuntimeException` thrown by `#getTokenProvider` when no
remember-me tokens provider is registered. -/
def tokenProviderConfigMessage : String :=
  "Cannot use rememberMe feature. Please configure the tokens provider inside config/auth file"

/-- Modelled from the spec: the one-way digest used by the remember-me token
(`remember_me_token.ts`, not under `src/`). The model only needs the digest to
be a deterministic injective function of the secret; irreversibility is out of
scope. -/
def digest (value : String) : String := "sha256:" ++ value

/-- Modelled from the spec: the two-part `series.value` wire encoding of a
remember-me token (`remember_me_token.ts` is not under `src/`; §3 of the spec
fixes the encoded cookie representation as `series.value`). -/
def encode (series value : String) : String := series ++ "." ++ value

/-- Splits a character list at the first `.`: the JavaScript idiom
`const [series, ...rest] = s.split('.')` with `rest` re-joined, i.e. the part
before the first separator and everything after it. -/
def splitFirstDot : List Char → Option (List Char × List Char)
  | [] => none
  | c :: rest =>
    if c = '.' then some ([], rest)
    else
      match splitFirstDot rest with
      | none => none
      | some (a, b) => some (c :: a, b)

/-- The persisted remember-me token (`RememberMeToken` value object plus the
database row shape `(series, user_id, guard, hash, created_at, updated_at,
expires_at)`). `value` is the transient full cookie string (series + secret),
present only on freshly created/refreshed tokens, never read back from the
store. -/
structure RememberMeToken where
  series : String
  value : Option String
  hash : String
  userId : Nat
  guard : String
  createdAt : Int
  updatedAt : Int
  expiresAt : Int
  deriving Repr, DecidableEq

namespace RememberMeToken

/-- Modelled from the spec: `RememberMeToken.decode(cookieString)`
(`remember_me_token.ts` is not under `src/`). Splits the two-part encoding at
the first separator; returns `none` — never throws — on malformed input or
missing/empty parts. -/
def decode (cookie : String) : Option (String × String) :=
  match splitFirstDot cookie.data with
  | none => none
  | some (s, v) => if s = [] ∨ v = [] then none else some (String.mk s, String.mk v)

/-- Modelled from the spec: `verify(presentedValue)` compares the digest of
the presented secret against the stored hash. -/
def verify (t : RememberMeToken) (presented : String) : Bool :=
  digest presented == t.hash

/-- Modelled from the spec: `RememberMeToken.create(userId, age, guardName)`.
Randomness is passed in explicitly (`series`, `secret`): the caller supplies
the fresh entropy the real implementation draws internally. `value` holds the
full encoded cookie string, which is what `guard.ts` drops inside the cookie
via `token.value!.release()`. -/
def create (userId : Nat) (age : Int) (guardName : String)
    (series secret : String) (now : Int) : RememberMeToken :=
  { series := series
    value := some (encode series secret)
    hash := digest secret
    userId := userId
    guard := guardName
    createdAt := now
    updatedAt := now
    expiresAt := now + age }

/-- Modelled from the spec: `refresh(age)` regenerates the secret and hash,
recomputes `expiresAt`, bumps `updatedAt` and preserves `series`. The fresh
secret is passed in explicitly. -/
def refresh (t : RememberMeToken) (age : Int) (secret : String) (now : Int) :
    RememberMeToken :=
  { t with
    value := some (encode t.series secret)
    hash := digest secret
    updatedAt := now
    expiresAt := now + age }

end RememberMeToken

/-- Modelled from the spec: `getTokenBySeries` of the database token provider
(`token_providers/database.ts`, not under `src/`). Looks the row up by series
and yields it only while it is still live: per §3 a token is valid only while
`now < expiresAt`, so lookup of an expired row yields `null`. -/
def getTokenBySeries (store : List RememberMeToken) (series : String) (now : Int) :
    Option RememberMeToken :=
  match store.find? (fun t => t.series == series) with
  | none => none
  | some t => if now < t.expiresAt then some t else none

/-- `updateTokenBySeries(series, token)`: replaces the row with the given
series. Modelled from the spec (provider not under `src/`). -/
def updateTokenBySeries (store : List RememberMeToken) (series : String)
    (t : RememberMeToken) : List RememberMeToken :=
  store.map (fun row => if row.series == series then t else row)

/-- `deleteTokenBySeries(series)`: removes the row with the given series.
Modelled from the spec (provider not under `src/`). -/
def deleteTokenBySeries (store : List RememberMeToken) (series : String) :
    List RememberMeToken :=
  store.filter (fun row => row.series != series)

/-- The session abstraction (`get`/`put`/`forget`/`regenerate`/`sessionId`).
`regenCount` counts `regenerate()` calls — the model of "cycle the session
identifier". -/
structure Session where
  sessionId : Nat
  store : List (String × Nat)
  regenCount : Nat
  deriving Repr, DecidableEq

namespace Session

def get (s : Session) (key : String) : Option Nat :=
  s.store.lookup key

def put (s : Session) (key : String) (v : Nat) : Session :=
  { s with store := (key, v) :: s.store.filter (fun kv => kv.1 != key) }

def forget (s : Session) (key : String) : Session :=
  { s with store := s.store.filter (fun kv => kv.1 != key) }

def regenerate (s : Session) : Session :=
  { s with regenCount := s.regenCount + 1 }

end Session

/-- One observable side effect of the guard: a session operation, a provider
call (with the outcome of lookups, mirroring call-count assertions), a cookie
operation on the response, the request-cookie read, or an emitted event. -/
inductive Effect where
  | sessionGet (key : String) (result : Option Nat)
  | sessionPut (key : String) (value : Nat)
  | sessionForget (key : String)
  | sessionRegenerate
  | readCookie (name : String) (result : Option String)
  | providerCreateUserForGuard (userId : Nat)
  | providerFindById (id : Nat) (found : Bool)
  | providerGetTokenBySeries (series : String) (found : Bool)
  | providerCreateToken (series : String)
  | providerUpdateTokenBySeries (series : String)
  | providerDeleteTokenBySeries (series : String)
  | setCookie (name : String) (value : String) (maxAge : Int)
  | clearCookie (name : String)
  | emit (e : AuthEvent)
  deriving Repr, DecidableEq

/-- The request-scoped mutable fields of the `SessionGuard` instance. The
resolved user is modelled by its id (`ProviderUser.getId()`); `user = none`
models `this.user === undefined`. -/
structure GuardState where
  name : String
  authenticationAttempted : Bool
  isLoggedOut : Bool
  isAuthenticated : Bool
  viaRemember : Bool
  user : Option Nat
  deriving Repr, DecidableEq

/-- The whole state an invocation of the guard can read or write:
the guard instance, the HTTP context (session, request cookie, response),
the two providers, the configuration, the clock, the entropy the token
subsystem would draw, and the accumulated effect trace.
`session = none` models a request without the session middleware;
`tokenStore = none` models an unregistered remember-me tokens provider;
`requestCookie` is the decrypted `remember_<name>` cookie (`none` when absent
or undecryptable). `freshSeries`/`freshValue` are the random series/secret the
next `create`/`refresh` would generate. -/
structure World where
  guard : GuardState
  session : Option Session
  requestCookie : Option String
  tokenStore : Option (List RememberMeToken)
  findById : Nat → Option Nat
  now : Int
  rememberMeTokenAge : Option Int
  freshSeries : String
  freshValue : String
  trace : List Effect

/-- The session key prefix applied to the guard name (auth_ followed by the name). -/
def sessionKeyName (name : String) : String := "auth_" ++ name

/-- The remember-me cookie key prefix applied to the guard name (remember_ followed by the name). -/
def rememberMeKeyName (name : String) : String := "remember_" ++ name

/-- Appends one effect to the world's trace. -/
def logE (w : World) (e : Effect) : World := { w with trace := w.trace ++ [e] }

/-- JavaScript truthiness of the session-stored user id
(`if (loggedInUserId)`): ids are numbers, so `0` is falsy and is treated like
an absent id. -/
def truthyId : Option Nat → Option Nat
  | some uid => if uid = 0 then none else some uid
  | none => none

/-- JavaScript truthiness of the request cookie (`!rememberMeCookie`): an
absent cookie and an empty string are both falsy. -/
def truthyStr : Option String → Option String
  | some s => if s = "" then none else some s
  | none => none

/-- `this.#config.rememberMeTokenAge || '2years'` — the configured age with
the two-year default; JavaScript `||` also replaces a configured `0`. The
default is two years in milliseconds. -/
def effectiveTokenAge (cfg : Option Int) : Int :=
  match cfg with
  | none => 63072000000
  | some a => if a = 0 then 63072000000 else a

/-- `#authenticationFailed(error, sessionId)`: emits the
`authentication_failed` event, then throws. -/
def authenticationFailed (w : World) (sessionId : Nat) : AuthError × World :=
  (.invalidAuthSession, logE w (.emit (.authenticationFailed sessionId)))

/-- `getUserOrFail()`: returns `this.user` or throws
`E_INVALID_AUTH_SESSION` (`if (!this.user)`; the user is an object, truthy
whenever present). -/
def getUserOrFail (w : World) : Except (AuthError × World) (Nat × World) :=
  match w.guard.user with
  | some u => .ok (u, w)
  | none => .error (.invalidAuthSession, w)

/-- The session-id branch of `authenticate()` (lines 858–891): a user id was
found in the session, resolve it through the user provider. -/
def authViaSessionId (w : World) (session : Session) (uid : Nat) :
    Except (AuthError × World) (Nat × World) :=
  let pu := w.findById uid
  let w := logE w (.providerFindById uid pu.isSome)
  match pu with
  | none => .error (authenticationFailed w session.sessionId)
  | some user =>
    let w := { w with guard := { w.guard with
      user := some user, isAuthenticated := true, isLoggedOut := false, viaRemember := false } }
    let w := logE w (.emit (.authenticationSucceeded session.sessionId user none))
    .ok (user, w)

/-- Steps 958–1019 of `authenticate()`: log the user in from a verified
remember-me token (session write, regenerate, flags, success event) and then
apply the rotation policy — refresh and persist the token only when it is
older than the 60-second buffer, re-issue the cookie either way. -/
def authTokenLogin (w : World) (session : Session) (store : List RememberMeToken)
    (cookie : String) (token : RememberMeToken) :
    Except (AuthError × World) (Nat × World) :=
  let pu := w.findById token.userId
  let w := logE w (.providerFindById token.userId pu.isSome)
  match pu with
  | none => .error (authenticationFailed w session.sessionId)
  | some user =>
    let session := (session.put (sessionKeyName w.guard.name) user).regenerate
    let w := { w with session := some session }
    let w := logE w (.sessionPut (sessionKeyName w.guard.name) user)
    let w := logE w .sessionRegenerate
    let w := { w with guard := { w.guard with
      user := some user, isAuthenticated := true, isLoggedOut := false, viaRemember := true } }
    let w := logE w (.emit (.authenticationSucceeded session.sessionId user (some token.series)))
    let age := effectiveTokenAge w.rememberMeTokenAge
    if token.updatedAt + 60000 < w.now then
      let newToken := token.refresh age w.freshValue w.now
      let w := { w with tokenStore := some (updateTokenBySeries store token.series newToken) }
      let w := logE w (.providerUpdateTokenBySeries token.series)
      let w := logE w (.setCookie (rememberMeKeyName w.guard.name) (encode token.series w.freshValue) age)
      .ok (user, w)
    else
      let w := logE w (.setCookie (rememberMeKeyName w.guard.name) cookie age)
      .ok (user, w)

/-- The remember-me-cookie branch of `authenticate()` (lines 906–953): read
the cookie, require a registered provider, decode, look the token up by
series, verify the secret and the guard scope. -/
def authViaRememberCookie (w : World) (session : Session) :
    Except (AuthError × World) (Nat × World) :=
  let cookie := w.requestCookie
  let w := logE w (.readCookie (rememberMeKeyName w.guard.name) cookie)
  match truthyStr cookie, w.tokenStore with
  | some c, some store =>
    match RememberMeToken.decode c with
    | none => .error (authenticationFailed w session.sessionId)
    | some (series, value) =>
      let tok := getTokenBySeries store series w.now
      let w := logE w (.providerGetTokenBySeries series tok.isSome)
      match tok with
      | none => .error (authenticationFailed w session.sessionId)
      | some token =>
        if !(token.verify value) || token.guard != w.guard.name then
          .error (authenticationFailed w session.sessionId)
        else
          authTokenLogin w session store c token
  | _, _ => .error (authenticationFailed w session.sessionId)

/-- `authenticate()` (lines 836–1020): idempotence check, mark attempted,
require the session, emit the attempt, then try the session id and fall back
to the remember-me cookie. -/
def authenticate (w : World) : Except (AuthError × World) (Nat × World) :=
  if w.guard.authenticationAttempted then
    getUserOrFail w
  else
    let w := { w with guard := { w.guard with authenticationAttempted := true } }
    match w.session with
    | none => .error (.runtimeException sessionConfigMessage, w)
    | some session =>
      let w := logE w (.emit (.authenticationAttempted session.sessionId))
      let loggedInUserId := session.get (sessionKeyName w.guard.name)
      let w := logE w (.sessionGet (sessionKeyName w.guard.name) loggedInUserId)
      match truthyId loggedInUserId with
      | some uid => authViaSessionId w session uid
      | none => authViaRememberCookie w session

/-- `check()` (lines 1028–1039): `authenticate()` inside a try/catch that
converts only `AuthenticationException` into `false`. -/
def check (w : World) : Except (AuthError × World) (Bool × World) :=
  match authenticate w with
  | .ok (_, w) => .ok (true, w)
  | .error (e, w) => if e.isAuthException then .ok (false, w) else .error (e, w)

/-- `login(user, remember)` (lines 761–830): emit the attempt, adapt the user
through the provider, write the session and regenerate its id, then either
mint and persist a remember-me token and set its cookie (requiring a
registered provider) or clear any stale cookie, and finally mark the guard
logged-in and emit success. -/
def login (w : World) (user : Nat) (remember : Bool) :
    Except (AuthError × World) (Nat × World) :=
  let w := logE w (.emit (.loginAttempted user))
  let w := logE w (.providerCreateUserForGuard user)
  match w.session with
  | none => .error (.runtimeException sessionConfigMessage, w)
  | some session =>
    let session := (session.put (sessionKeyName w.guard.name) user).regenerate
    let w := { w with session := some session }
    let w := logE w (.sessionPut (sessionKeyName w.guard.name) user)
    let w := logE w .sessionRegenerate
    if remember then
      match w.tokenStore with
      | none => .error (.runtimeException tokenProviderConfigMessage, w)
      | some store =>
        let age := effectiveTokenAge w.rememberMeTokenAge
        let token := RememberMeToken.create user age w.guard.name w.freshSeries w.freshValue w.now
        let w := { w with tokenStore := some (store ++ [token]) }
        let w := logE w (.providerCreateToken token.series)
        let w := logE w (.setCookie (rememberMeKeyName w.guard.name) (encode token.series w.freshValue) age)
        let w := { w with guard := { w.guard with user := some user, isLoggedOut := false } }
        let w := logE w (.emit (.loginSucceeded user session.sessionId (some token.series)))
        .ok (user, w)
    else
      let w := logE w (.clearCookie (rememberMeKeyName w.guard.name))
      let w := { w with guard := { w.guard with user := some user, isLoggedOut := false } }
      let w := logE w (.emit (.loginSucceeded user session.sessionId none))
      .ok (user, w)

/-- `logout()` (lines 1044–1077): forget the session key, clear the cookie,
emit `logged_out`, then best-effort delete the persisted token by series,
returning silently when the cookie is absent, the provider is unregistered or
the cookie fails to decode. No guard flag is touched. -/
def logout (w : World) : Except (AuthError × World) (Unit × World) :=
  match w.session with
  | none => .error (.runtimeException sessionConfigMessage, w)
  | some session =>
    let session := session.forget (sessionKeyName w.guard.name)
    let w := { w with session := some session }
    let w := logE w (.sessionForget (sessionKeyName w.guard.name))
    let w := logE w (.clearCookie (rememberMeKeyName w.guard.name))
    let w := logE w (.emit (.loggedOut w.guard.user session.sessionId))
    let cookie := w.requestCookie
    let w := logE w (.readCookie (rememberMeKeyName w.guard.name) cookie)
    match truthyStr cookie, w.tokenStore with
    | some c, some store =>
      match RememberMeToken.decode c with
      | none => .ok ((), w)
      | some (series, _) =>
        let w := { w with tokenStore := some (deleteTokenBySeries store series) }
        let w := logE w (.providerDeleteTokenBySeries series)
        .ok ((), w)
    | _, _ => .ok ((), w)

/-- Projects the error out of a guard call's result, if it failed. -/
def resultError : Except (AuthError × World) (Nat × World) → Option AuthError
  | .error (e, _) => some e
  | .ok _ => none

/-- Projects the final world out of a guard call's result. -/
def resultWorld : Except (AuthError × World) (Nat × World) → World
  | .error (_, w) => w
  | .ok (_, w) => w

def noSessionWorld : World :=
  { guard := { name := "web", authenticationAttempted := false, isLoggedOut := false,
               isAuthenticated := false, viaRemember := false, user := none }
    session := none
    requestCookie := none
    tokenStore := none
    findById := fun _ => none
    now := 0
    rememberMeTokenAge := none
    freshSeries := "s9"
    freshValue := "v9"
    trace := [] }

def emptyWorld : World :=
  { guard := { name := "web", authenticationAttempted := false, isLoggedOut := false,
               isAuthenticated := false, viaRemember := false, user := none }
    session := some { sessionId := 1, store := [], regenCount := 0 }
    requestCookie := none
    tokenStore := none
    findById := fun _ => none
    now := 0
    rememberMeTokenAge := none
    freshSeries := "s9"
    freshValue := "v9"
    trace := [] }

def attemptedWorld : World :=
  { guard := { name := "web", authenticationAttempted := true, isLoggedOut := false,
               isAuthenticated := true, viaRemember := false, user := some 7 }
    session := some { sessionId := 1, store := [("auth_web", 7)], regenCount := 0 }
    requestCookie := none
    tokenStore := none
    findById := fun i => if i = 7 then some 7 else none
    now := 0
    rememberMeTokenAge := none
    freshSeries := "s9"
    freshValue := "v9"
    trace := [] }

def invalidSessionSpecClaimed (w : World) (session : Session) : Bool :=
  match session.get (sessionKeyName w.guard.name) with
  | some uid => (w.findById uid).isNone
  | none =>
    match w.requestCookie, w.tokenStore with
    | none, _ => true
    | some _, none => true
    | some c, some store =>
      match RememberMeToken.decode c with
      | none => true
      | some (series, value) =>
        match getTokenBySeries store series w.now with
        | none => true
        | some token => (!(token.verify value) || token.guard != w.guard.name)

def invalidSessionSpecAmended (w : World) (session : Session) : Bool :=
  match truthyId (session.get (sessionKeyName w.guard.name)) with
  | some uid => (w.findById uid).isNone
  | none =>
    match truthyStr w.requestCookie, w.tokenStore with
    | none, _ => true
    | some _, none => true
    | some c, some store =>
      match RememberMeToken.decode c with
      | none => true
      | some (series, value) =>
        match getTokenBySeries store series w.now with
        | none => true
        | some token =>
          ((!(token.verify value) || token.guard != w.guard.name)
            || (w.findById token.userId).isNone)

def liveToken : RememberMeToken :=
  { series := "s1"
    value := none
    hash := digest "v1"
    userId := 7
    guard := "web"
    createdAt := 0
    updatedAt := 0
    expiresAt := 1000000000 }

def freshSession : Session := { sessionId := 1, store := [], regenCount := 0 }

def staleOwnerWorld : World :=
  { guard := { name := "web", authenticationAttempted := false, isLoggedOut := false,
               isAuthenticated := false, viaRemember := false, user := none }
    session := some freshSession
    requestCookie := some "s1.v1"
    tokenStore := some [liveToken]
    findById := fun _ => none
    now := 100000
    rememberMeTokenAge := some 1000000
    freshSeries := "s9"
    freshValue := "v9"
    trace := [] }

def loginNoProviderWorld : World :=
  { guard := { name := "web", authenticationAttempted := false, isLoggedOut := false,
               isAuthenticated := false, viaRemember := false, user := none }
    session := some freshSession
    requestCookie := none
    tokenStore := none
    findById := fun i => if i = 7 then some 7 else none
    now := 0
    rememberMeTokenAge := none
    freshSeries := "s9"
    freshValue := "v9"
    trace := [] }

def logoutDeleteSeries (w : World) : Option String :=
  match truthyStr w.requestCookie, w.tokenStore with
  | some c, some _ =>
    (match RememberMeToken.decode c with
     | some (series, _) => some series
     | none => none)
  | _, _ => none

def tokenWorld : World :=
  { staleOwnerWorld with findById := fun i => if i = 7 then some 7 else none }

def crossGuardWorld : World :=
  { tokenWorld with
    guard := { name := "api", authenticationAttempted := false, isLoggedOut := false,
               isAuthenticated := false, viaRemember := false, user := none } }

def expiredToken : RememberMeToken :=
  { liveToken with expiresAt := 1000 }

def expiredTokenWorld : World :=
  { tokenWorld with tokenStore := some [expiredToken] }

theorem authenticate_token_success
    (w : World) (session : Session) (c series value : String)
    (store : List RememberMeToken) (token : RememberMeToken) (u : Nat)
    (hAtt : w.guard.authenticationAttempted = false)
    (hSess : w.session = some session)
    (hNoUid : truthyId (session.get (sessionKeyName w.guard.name)) = none)
    (hCookie : truthyStr w.requestCookie = some c)
    (hStore : w.tokenStore = some store)
    (hDecode : RememberMeToken.decode c = some (series, value))
    (hTok : getTokenBySeries store series w.now = some token)
    (hVerify : token.verify value = true)
    (hGuard : token.guard = w.guard.name)
    (hUser : w.findById token.userId = some u) :
    authenticate w =
      (let session1 := (session.put (sessionKeyName w.guard.name) u).regenerate
       let baseTrace := w.trace ++ [.emit (.authenticationAttempted session.sessionId),
          .sessionGet (sessionKeyName w.guard.name) (session.get (sessionKeyName w.guard.name)),
          .readCookie (rememberMeKeyName w.guard.name) w.requestCookie,
          .providerGetTokenBySeries series true,
          .providerFindById token.userId true,
          .sessionPut (sessionKeyName w.guard.name) u,
          .sessionRegenerate,
          .emit (.authenticationSucceeded session.sessionId u (some token.series))]
       let g1 : GuardState := { w.guard with
         authenticationAttempted := true
         user := some u
         isAuthenticated := true
         isLoggedOut := false
         viaRemember := true }
       let age := effectiveTokenAge w.rememberMeTokenAge
       if token.updatedAt + 60000 < w.now then
         .ok (u, { w with
           guard := g1
           session := some session1
           tokenStore := some (updateTokenBySeries store token.series
             (token.refresh age w.freshValue w.now))
           trace := baseTrace ++ [.providerUpdateTokenBySeries token.series,
             .setCookie (rememberMeKeyName w.guard.name)
               (encode token.series w.freshValue) age] })
       else
         .ok (u, { w with
           guard := g1
           session := some session1
           trace := baseTrace ++
             [.setCookie (rememberMeKeyName w.guard.name) c age] })) := by
  unfold authenticate
  rw [hAtt]
  simp only [Bool.false_eq_true, if_false, hSess]
  unfold authViaRememberCookie authTokenLogin
  simp only [logE, hNoUid, hCookie, hStore, hDecode, hTok, hVerify, hGuard, hUser]
  simp [hNoUid, hCookie, hStore, hDecode, hTok, hVerify, hGuard, hUser,
    Session.put, Session.regenerate, List.append_assoc]

theorem rotation_policy
    (w : World) (session : Session) (c series value : String)
    (store : List RememberMeToken) (token : RememberMeToken) (u : Nat)
    (hAtt : w.guard.authenticationAttempted = false)
    (hSess : w.session = some session)
    (hNoUid : truthyId (session.get (sessionKeyName w.guard.name)) = none)
    (hCookie : truthyStr w.requestCookie = some c)
    (hStore : w.tokenStore = some store)
    (hDecode : RememberMeToken.decode c = some (series, value))
    (hTok : getTokenBySeries store series w.now = some token)
    (hVerify : token.verify value = true)
    (hGuard : token.guard = w.guard.name)
    (hUser : w.findById token.userId = some u)
    (hFresh : digest w.freshValue ≠ token.hash) :
    ∃ w1, authenticate w = .ok (u, w1) ∧
      ((token.updatedAt + 60000 < w.now) →
        (RememberMeToken.refresh token (effectiveTokenAge w.rememberMeTokenAge) w.freshValue w.now).series = token.series ∧
        (RememberMeToken.refresh token (effectiveTokenAge w.rememberMeTokenAge) w.freshValue w.now).hash = digest w.freshValue ∧
        (RememberMeToken.refresh token (effectiveTokenAge w.rememberMeTokenAge) w.freshValue w.now).hash ≠ token.hash ∧
        w1.tokenStore = some (updateTokenBySeries store token.series
          (RememberMeToken.refresh token (effectiveTokenAge w.rememberMeTokenAge) w.freshValue w.now)) ∧
        ∃ t0, w1.trace = t0 ++ [Effect.setCookie (rememberMeKeyName w.guard.name)
          (encode token.series w.freshValue) (effectiveTokenAge w.rememberMeTokenAge)]) ∧
      (¬ (token.updatedAt + 60000 < w.now) →
        w1.tokenStore = some store ∧
        ∃ t0, w1.trace = t0 ++ [Effect.setCookie (rememberMeKeyName w.guard.name) c
          (effectiveTokenAge w.rememberMeTokenAge)]) := by
  rw [authenticate_token_success w session c series value store token u hAtt hSess hNoUid
    hCookie hStore hDecode hTok hVerify hGuard hUser]
  by_cases hrot : token.updatedAt + 60000 < w.now
  · simp only [if_pos hrot]
    refine ⟨_, rfl, fun _ => ⟨rfl, rfl, hFresh, rfl, ?_⟩, fun h => absurd hrot h⟩
    refine ⟨w.trace ++ [.emit (.authenticationAttempted session.sessionId),
      .sessionGet (sessionKeyName w.guard.name) (session.get (sessionKeyName w.guard.name)),
      .readCookie (rememberMeKeyName w.guard.name) w.requestCookie,
      .providerGetTokenBySeries series true,
      .providerFindById token.userId true,
      .sessionPut (sessionKeyName w.guard.name) u,
      .sessionRegenerate,
      .emit (.authenticationSucceeded session.sessionId u (some token.series)),
      .providerUpdateTokenBySeries token.series], by simp⟩
  · simp only [if_neg hrot]
    refine ⟨_, rfl, fun h => absurd h hrot, fun _ => ⟨hStore, ?_⟩⟩
    refine ⟨w.trace ++ [.emit (.authenticationAttempted session.sessionId),
      .sessionGet (sessionKeyName w.guard.name) (session.get (sessionKeyName w.guard.name)),
      .readCookie (rememberMeKeyName w.guard.name) w.requestCookie,
      .providerGetTokenBySeries series true,
      .providerFindById token.userId true,
      .sessionPut (sessionKeyName w.guard.name) u,
      .sessionRegenerate,
      .emit (.authenticationSucceeded session.sessionId u (some token.series))], by simp⟩

theorem token_auth_session_regeneration
    (w : World) (session : Session) (c series value : String)
    (store : List RememberMeToken) (token : RememberMeToken) (u : Nat)
    (hAtt : w.guard.authenticationAttempted = false)
    (hSess : w.session = some session)
    (hNoUid : truthyId (session.get (sessionKeyName w.guard.name)) = none)
    (hCookie : truthyStr w.requestCookie = some c)
    (hStore : w.tokenStore = some store)
    (hDecode : RememberMeToken.decode c = some (series, value))
    (hTok : getTokenBySeries store series w.now = some token)
    (hVerify : token.verify value = true)
    (hGuard : token.guard = w.guard.name)
    (hUser : w.findById token.userId = some u) :
    ∃ w1 rest, authenticate w = .ok (u, w1) ∧
      w1.session = some ((session.put (sessionKeyName w.guard.name) u).regenerate) ∧
      ((session.put (sessionKeyName w.guard.name) u).regenerate).get
        (sessionKeyName w.guard.name) = some u ∧
      ((session.put (sessionKeyName w.guard.name) u).regenerate).regenCount
        = session.regenCount + 1 ∧
      w1.guard.isAuthenticated = true ∧
      w1.guard.viaRemember = true ∧
      w1.guard.user = some u ∧
      w1.trace = w.trace ++ [.emit (.authenticationAttempted session.sessionId),
        .sessionGet (sessionKeyName w.guard.name) (session.get (sessionKeyName w.guard.name)),
        .readCookie (rememberMeKeyName w.guard.name) w.requestCookie,
        .providerGetTokenBySeries series true,
        .providerFindById token.userId true,
        .sessionPut (sessionKeyName w.guard.name) u,
        .sessionRegenerate,
        .emit (.authenticationSucceeded session.sessionId u (some token.series))] ++ rest := by
  have hput : ((session.put (sessionKeyName w.guard.name) u).regenerate).get
      (sessionKeyName w.guard.name) = some u := by
    simp [Session.get, Session.put, Session.regenerate, List.lookup]
  have hreg : ((session.put (sessionKeyName w.guard.name) u).regenerate).regenCount
      = session.regenCount + 1 := by
    simp [Session.put, Session.regenerate]
  rw [authenticate_token_success w session c series value store token u hAtt hSess hNoUid
    hCookie hStore hDecode hTok hVerify hGuard hUser]
  by_cases hrot : token.updatedAt + 60000 < w.now
  · simp only [if_pos hrot]
    exact ⟨_, [.providerUpdateTokenBySeries token.series,
      .setCookie (rememberMeKeyName w.guard.name) (encode token.series w.freshValue)
        (effectiveTokenAge w.rememberMeTokenAge)],
      rfl, rfl, hput, hreg, rfl, rfl, rfl, by simp⟩
  · simp only [if_neg hrot]
    exact ⟨_, [.setCookie (rememberMeKeyName w.guard.name) c
        (effectiveTokenAge w.rememberMeTokenAge)],
      rfl, rfl, hput, hreg, rfl, rfl, rfl, by simp⟩

theorem splitFirstDot_append (l1 l2 : List Char) (h : '.' ∉ l1) :
    splitFirstDot (l1 ++ '.' :: l2) = some (l1, l2) := by
  induction l1 with
  | nil => simp [splitFirstDot]
  | cons c rest ih =>
    simp only [List.mem_cons, not_or] at h
    obtain ⟨hc, hrest⟩ := h
    have hcc : ¬ (c = '.') := fun e => hc (Eq.symm e)
    simp [List.cons_append, splitFirstDot, hcc, ih hrest]

theorem splitFirstDot_parts (l a b : List Char) (h : splitFirstDot l = some (a, b)) :
    l = a ++ '.' :: b ∧ '.' ∉ a := by
  induction l generalizing a b with
  | nil => simp [splitFirstDot] at h
  | cons c rest ih =>
    by_cases hc : c = '.'
    · subst hc
      simp [splitFirstDot] at h
      obtain ⟨h1, h2⟩ := h
      subst h1; subst h2
      simp
    · simp only [splitFirstDot, if_neg hc] at h
      cases hsp : splitFirstDot rest with
      | none => rw [hsp] at h; simp at h
      | some p =>
        obtain ⟨a', b'⟩ := p
        rw [hsp] at h
        simp at h
        obtain ⟨h1, h2⟩ := h
        obtain ⟨hl, hni⟩ := ih a' b' hsp
        subst h2
        constructor
        · rw [← h1]; simp [hl]
        · rw [← h1]
          simp [List.mem_cons, not_or]
          exact ⟨fun e => hc e.symm, hni⟩

theorem decode_encode (series value : String) (h1 : series ≠ "")
    (h2 : '.' ∉ series.data) (h3 : value ≠ "") :
    RememberMeToken.decode (encode series value) = some (series, value) := by
  have hd : (encode series value).data = series.data ++ '.' :: value.data := by
    simp [encode, String.data_append]
  have hs : series.data ≠ [] := fun e => h1 (String.ext e)
  have hv : value.data ≠ [] := fun e => h3 (String.ext e)
  simp [RememberMeToken.decode, hd, splitFirstDot_append _ _ h2, hs, hv]

theorem decode_inverse (c series value : String)
    (h : RememberMeToken.decode c = some (series, value)) : encode series value = c := by
  unfold RememberMeToken.decode at h
  cases hsp : splitFirstDot c.data with
  | none => rw [hsp] at h; simp at h
  | some p =>
    obtain ⟨a, b⟩ := p
    rw [hsp] at h
    by_cases he : a = [] ∨ b = []
    · simp [he] at h
    · simp [he] at h
      obtain ⟨h1, h2⟩ := h
      obtain ⟨hl, _⟩ := splitFirstDot_parts _ _ _ hsp
      apply String.ext
      rw [← h1, ← h2]
      simp [encode, String.data_append, hl]

theorem guard_scoping
    (w : World) (session : Session) (c series value : String)
    (store : List RememberMeToken) (token : RememberMeToken)
    (hAtt : w.guard.authenticationAttempted = false)
    (hSess : w.session = some session)
    (hNoUid : truthyId (session.get (sessionKeyName w.guard.name)) = none)
    (hCookie : truthyStr w.requestCookie = some c)
    (hStore : w.tokenStore = some store)
    (hDecode : RememberMeToken.decode c = some (series, value))
    (hTok : getTokenBySeries store series w.now = some token)
    (hVerify : token.verify value = true)
    (hGuard : token.guard ≠ w.guard.name) :
    resultError (authenticate w) = some .invalidAuthSession := by
  unfold authenticate authViaRememberCookie
  rw [hAtt]
  simp [hSess, hNoUid, hCookie, hStore, hDecode, hTok, hVerify, hGuard,
    logE, authenticationFailed, resultError, bne_iff_ne]

theorem token_expiry
    (w : World) (session : Session) (c series value : String)
    (store : List RememberMeToken) (token : RememberMeToken)
    (hAtt : w.guard.authenticationAttempted = false)
    (hSess : w.session = some session)
    (hNoUid : truthyId (session.get (sessionKeyName w.guard.name)) = none)
    (hCookie : truthyStr w.requestCookie = some c)
    (hStore : w.tokenStore = some store)
    (hDecode : RememberMeToken.decode c = some (series, value))
    (hFind : store.find? (fun t => t.series == series) = some token)
    (hExp : token.expiresAt ≤ w.now) :
    resultError (authenticate w) = some .invalidAuthSession ∧
    (∀ t, getTokenBySeries store series w.now = some t → w.now < t.expiresAt) := by
  have hTok : getTokenBySeries store series w.now = none := by
    simp [getTokenBySeries, hFind, not_lt.mpr hExp]
  constructor
  · unfold authenticate authViaRememberCookie
    rw [hAtt]
    simp [hSess, hNoUid, hCookie, hStore, hDecode, hTok,
      logE, authenticationFailed, resultError]
  · intro t ht
    unfold getTokenBySeries at ht
    cases hf : store.find? (fun t => t.series == series) with
    | none => rw [hf] at ht; simp at ht
    | some t0 =>
      rw [hf] at ht
      by_cases hlt : w.now < t0.expiresAt
      · simp [hlt] at ht
        rw [← ht]
        exact hlt
      · simp [hlt] at ht

theorem authenticate_idempotent (w : World)
    (hAtt : w.guard.authenticationAttempted = true) :
    (∀ u, w.guard.user = some u → authenticate w = .ok (u, w)) ∧
    (w.guard.user = none → authenticate w = .error (.invalidAuthSession, w)) := by
  constructor
  · intro u hu
    unfold authenticate getUserOrFail
    rw [hAtt, hu]
    simp
  · intro hu
    unfold authenticate getUserOrFail
    rw [hAtt, hu]
    simp

theorem authenticate_idempotent_counterexample :
    resultError (authenticate noSessionWorld)
      = some (.runtimeException sessionConfigMessage) ∧
    (resultWorld (authenticate noSessionWorld)).guard.authenticationAttempted = true ∧
    resultError (authenticate (resultWorld (authenticate noSessionWorld)))
      = some .invalidAuthSession ∧
    AuthError.runtimeException sessionConfigMessage ≠ AuthError.invalidAuthSession := by
  exact ⟨rfl, rfl, rfl, by decide⟩

theorem authenticate_idempotent_witness :
    attemptedWorld.guard.authenticationAttempted = true ∧
    authenticate attemptedWorld = .ok (7, attemptedWorld) :=
  ⟨rfl, (authenticate_idempotent attemptedWorld rfl).1 7 rfl⟩

theorem check_propagation (w : World) :
    (∀ u w1, authenticate w = .ok (u, w1) → check w = .ok (true, w1)) ∧
    (∀ e w1, authenticate w = .error (e, w1) →
      ((e = .invalidAuthSession ∨ e = .invalidAuthToken) → check w = .ok (false, w1)) ∧
      (e ≠ .invalidAuthSession → e ≠ .invalidAuthToken → check w = .error (e, w1))) := by
  constructor
  · intro u w1 h
    unfold check
    rw [h]
  · intro e w1 h
    constructor
    · intro he
      unfold check
      rw [h]
      rcases he with he | he <;> subst he <;> rfl
    · intro h1 h2
      unfold check
      rw [h]
      cases e with
      | invalidAuthSession => exact absurd rfl h1
      | invalidAuthToken => exact absurd rfl h2
      | runtimeException m => rfl

theorem check_propagation_witness :
    check emptyWorld = .ok (false, resultWorld (authenticate emptyWorld)) :=
  ((check_propagation emptyWorld).2 AuthError.invalidAuthSession
    (resultWorld (authenticate emptyWorld)) (by rfl)).1 (Or.inl rfl)

theorem cookie_codec_roundtrip
    (series value : String) (h1 : series ≠ "") (h2 : '.' ∉ series.data) (h3 : value ≠ "") :
    RememberMeToken.decode (encode series value) = some (series, value) ∧
    (∀ c s v, RememberMeToken.decode c = some (s, v) → encode s v = c) ∧
    (∀ (w : World) (session : Session) (c : String) (store : List RememberMeToken),
      w.guard.authenticationAttempted = false →
      w.session = some session →
      truthyId (session.get (sessionKeyName w.guard.name)) = none →
      truthyStr w.requestCookie = some c →
      w.tokenStore = some store →
      RememberMeToken.decode c = none →
      resultError (authenticate w) = some .invalidAuthSession) := by
  refine ⟨decode_encode series value h1 h2 h3, decode_inverse, ?_⟩
  intro w session c store hAtt hSess hNoUid hCookie hStore hDecode
  unfold authenticate authViaRememberCookie
  rw [hAtt]
  simp [hSess, hNoUid, hCookie, hStore, hDecode,
    logE, authenticationFailed, resultError]

theorem cookie_codec_roundtrip_witness :
    RememberMeToken.decode (encode "s1" "v1") = some ("s1", "v1") ∧
    (∀ c s v, RememberMeToken.decode c = some (s, v) → encode s v = c) ∧
    (∀ (w : World) (session : Session) (c : String) (store : List RememberMeToken),
      w.guard.authenticationAttempted = false →
      w.session = some session →
      truthyId (session.get (sessionKeyName w.guard.name)) = none →
      truthyStr w.requestCookie = some c →
      w.tokenStore = some store →
      RememberMeToken.decode c = none →
      resultError (authenticate w) = some .invalidAuthSession) :=
  cookie_codec_roundtrip "s1" "v1" (by decide) (by decide) (by decide)

theorem authenticate_failure_characterization (w : World) (session : Session)
    (hAtt : w.guard.authenticationAttempted = false)
    (hSess : w.session = some session) :
    (resultError (authenticate w) = some .invalidAuthSession ↔
      invalidSessionSpecAmended w session = true) := by
  unfold authenticate invalidSessionSpecAmended
  rw [hAtt]
  simp only [Bool.false_eq_true, if_false, hSess]
  cases htr : truthyId (session.get (sessionKeyName w.guard.name)) with
  | some uid =>
    unfold authViaSessionId
    cases hf : w.findById uid with
    | none => simp [htr, hf, logE, authenticationFailed, resultError]
    | some u0 => simp [htr, hf, logE, resultError]
  | none =>
    unfold authViaRememberCookie
    cases hc : truthyStr w.requestCookie with
    | none =>
      cases hts : w.tokenStore <;>
        simp [htr, hc, hts, logE, authenticationFailed, resultError]
    | some c =>
      cases hts : w.tokenStore with
      | none => simp [htr, hc, hts, logE, authenticationFailed, resultError]
      | some store =>
        cases hd : RememberMeToken.decode c with
        | none => simp [htr, hc, hts, hd, logE, authenticationFailed, resultError]
        | some sv =>
          obtain ⟨series, value⟩ := sv
          cases ht : getTokenBySeries store series w.now with
          | none => simp [htr, hc, hts, hd, ht, logE, authenticationFailed, resultError]
          | some token =>
            by_cases hb : (!(token.verify value) || token.guard != w.guard.name) = true
            · simp [htr, hc, hts, hd, ht, hb, logE, authenticationFailed, resultError]
            · unfold authTokenLogin
              cases hf : w.findById token.userId with
              | none =>
                simp [htr, hc, hts, hd, ht, hb, hf, logE,
                  authenticationFailed, resultError]
              | some u0 =>
                by_cases hrot : token.updatedAt + 60000 < w.now
                · simp [htr, hc, hts, hd, ht, hb, hf, hrot, logE, resultError]
                · simp [htr, hc, hts, hd, ht, hb, hf, hrot, logE, resultError]

theorem authenticate_failure_characterization_counterexample :
    staleOwnerWorld.guard.authenticationAttempted = false ∧
    staleOwnerWorld.session = some freshSession ∧
    resultError (authenticate staleOwnerWorld) = some .invalidAuthSession ∧
    invalidSessionSpecClaimed staleOwnerWorld freshSession = false := by
  exact ⟨rfl, rfl, rfl, rfl⟩

theorem authenticate_failure_characterization_witness :
    (resultError (authenticate staleOwnerWorld) = some .invalidAuthSession ↔
      invalidSessionSpecAmended staleOwnerWorld freshSession = true) :=
  authenticate_failure_characterization staleOwnerWorld freshSession rfl rfl

theorem login_remember_without_provider
    (w : World) (session : Session) (u : Nat)
    (hSess : w.session = some session)
    (hProv : w.tokenStore = none) :
    login w u true = .error (.runtimeException tokenProviderConfigMessage,
      { w with
        session := some ((session.put (sessionKeyName w.guard.name) u).regenerate)
        trace := w.trace ++ [.emit (.loginAttempted u), .providerCreateUserForGuard u,
          .sessionPut (sessionKeyName w.guard.name) u, .sessionRegenerate] }) ∧
    ((session.put (sessionKeyName w.guard.name) u).regenerate).get
      (sessionKeyName w.guard.name) = some u ∧
    ((session.put (sessionKeyName w.guard.name) u).regenerate).regenCount
      = session.regenCount + 1 := by
  refine ⟨?_, ?_, ?_⟩
  · unfold login
    simp [hSess, hProv, logE, List.append_assoc]
  · simp [Session.get, Session.put, Session.regenerate, List.lookup]
  · simp [Session.put, Session.regenerate]

theorem login_remember_without_provider_witness :
    login loginNoProviderWorld 7 true = .error (.runtimeException tokenProviderConfigMessage,
      { loginNoProviderWorld with
        session := some ((freshSession.put (sessionKeyName "web") 7).regenerate)
        trace := [.emit (.loginAttempted 7), .providerCreateUserForGuard 7,
          .sessionPut (sessionKeyName "web") 7, .sessionRegenerate] }) ∧
    ((freshSession.put (sessionKeyName "web") 7).regenerate).get
      (sessionKeyName "web") = some 7 ∧
    ((freshSession.put (sessionKeyName "web") 7).regenerate).regenCount
      = freshSession.regenCount + 1 :=
  login_remember_without_provider loginNoProviderWorld freshSession 7 rfl rfl

theorem logout_frame (w : World) (session : Session)
    (hSess : w.session = some session) :
    ∃ w1, logout w = .ok ((), w1) ∧
      w1.guard = w.guard ∧
      w1.session = some (session.forget (sessionKeyName w.guard.name)) ∧
      ((∃ series store, logoutDeleteSeries w = some series ∧ w.tokenStore = some store ∧
          w1.tokenStore = some (deleteTokenBySeries store series) ∧
          w1.trace = w.trace ++ [.sessionForget (sessionKeyName w.guard.name),
            .clearCookie (rememberMeKeyName w.guard.name),
            .emit (.loggedOut w.guard.user session.sessionId),
            .readCookie (rememberMeKeyName w.guard.name) w.requestCookie,
            .providerDeleteTokenBySeries series]) ∨
        (logoutDeleteSeries w = none ∧ w1.tokenStore = w.tokenStore ∧
          w1.trace = w.trace ++ [.sessionForget (sessionKeyName w.guard.name),
            .clearCookie (rememberMeKeyName w.guard.name),
            .emit (.loggedOut w.guard.user session.sessionId),
            .readCookie (rememberMeKeyName w.guard.name) w.requestCookie])) := by
  unfold logout
  rw [hSess]
  cases hc : truthyStr w.requestCookie with
  | none =>
    cases hts : w.tokenStore with
    | none =>
      simp only [hc, hts, logE]
      refine ⟨_, rfl, rfl, rfl, Or.inr ⟨?_, ?_, ?_⟩⟩
      · simp [logoutDeleteSeries, hc, hts]
      · simp [hts]
      · simp [Session.forget]
    | some store =>
      simp only [hc, hts, logE]
      refine ⟨_, rfl, rfl, rfl, Or.inr ⟨?_, ?_, ?_⟩⟩
      · simp [logoutDeleteSeries, hc, hts]
      · simp [hts]
      · simp [Session.forget]
  | some c =>
    cases hts : w.tokenStore with
    | none =>
      simp only [hc, hts, logE]
      refine ⟨_, rfl, rfl, rfl, Or.inr ⟨?_, ?_, ?_⟩⟩
      · simp [logoutDeleteSeries, hc, hts]
      · simp [hts]
      · simp [Session.forget]
    | some store =>
      cases hd : RememberMeToken.decode c with
      | none =>
        simp only [hc, hts, hd, logE]
        refine ⟨_, rfl, rfl, rfl, Or.inr ⟨?_, ?_, ?_⟩⟩
        · simp [logoutDeleteSeries, hc, hts, hd]
        · simp [hts]
        · simp [Session.forget]
      | some sv =>
        obtain ⟨series, v⟩ := sv
        simp only [hc, hts, hd, logE]
        refine ⟨_, rfl, rfl, rfl, Or.inl ⟨series, store, ?_, ?_, ?_, ?_⟩⟩
        · simp [logoutDeleteSeries, hc, hts, hd]
        · simp [hts]
        · rfl
        · simp [Session.forget]

theorem rotation_policy_witness :
    ∃ w1, authenticate tokenWorld = .ok (7, w1) ∧
      ((liveToken.updatedAt + 60000 < tokenWorld.now) →
        (RememberMeToken.refresh liveToken (effectiveTokenAge tokenWorld.rememberMeTokenAge)
          tokenWorld.freshValue tokenWorld.now).series = liveToken.series ∧
        (RememberMeToken.refresh liveToken (effectiveTokenAge tokenWorld.rememberMeTokenAge)
          tokenWorld.freshValue tokenWorld.now).hash = digest tokenWorld.freshValue ∧
        (RememberMeToken.refresh liveToken (effectiveTokenAge tokenWorld.rememberMeTokenAge)
          tokenWorld.freshValue tokenWorld.now).hash ≠ liveToken.hash ∧
        w1.tokenStore = some (updateTokenBySeries [liveToken] liveToken.series
          (RememberMeToken.refresh liveToken (effectiveTokenAge tokenWorld.rememberMeTokenAge)
            tokenWorld.freshValue tokenWorld.now)) ∧
        ∃ t0, w1.trace = t0 ++ [Effect.setCookie (rememberMeKeyName tokenWorld.guard.name)
          (encode liveToken.series tokenWorld.freshValue)
          (effectiveTokenAge tokenWorld.rememberMeTokenAge)]) ∧
      (¬ (liveToken.updatedAt + 60000 < tokenWorld.now) →
        w1.tokenStore = some [liveToken] ∧
        ∃ t0, w1.trace = t0 ++ [Effect.setCookie (rememberMeKeyName tokenWorld.guard.name)
          "s1.v1" (effectiveTokenAge tokenWorld.rememberMeTokenAge)]) :=
  rotation_policy tokenWorld freshSession "s1.v1" "s1" "v1" [liveToken] liveToken 7
    (by decide) (by decide) (by decide) (by decide) (by decide) (by decide)
    (by decide) (by decide) (by decide) (by decide) (by decide)

theorem token_auth_session_regeneration_witness :
    ∃ w1 rest, authenticate tokenWorld = .ok (7, w1) ∧
      w1.session = some ((freshSession.put (sessionKeyName tokenWorld.guard.name) 7).regenerate) ∧
      ((freshSession.put (sessionKeyName tokenWorld.guard.name) 7).regenerate).get
        (sessionKeyName tokenWorld.guard.name) = some 7 ∧
      ((freshSession.put (sessionKeyName tokenWorld.guard.name) 7).regenerate).regenCount
        = freshSession.regenCount + 1 ∧
      w1.guard.isAuthenticated = true ∧
      w1.guard.viaRemember = true ∧
      w1.guard.user = some 7 ∧
      w1.trace = tokenWorld.trace ++ [.emit (.authenticationAttempted freshSession.sessionId),
        .sessionGet (sessionKeyName tokenWorld.guard.name)
          (freshSession.get (sessionKeyName tokenWorld.guard.name)),
        .readCookie (rememberMeKeyName tokenWorld.guard.name) tokenWorld.requestCookie,
        .providerGetTokenBySeries "s1" true,
        .providerFindById liveToken.userId true,
        .sessionPut (sessionKeyName tokenWorld.guard.name) 7,
        .sessionRegenerate,
        .emit (.authenticationSucceeded freshSession.sessionId 7 (some liveToken.series))] ++ rest :=
  token_auth_session_regeneration tokenWorld freshSession "s1.v1" "s1" "v1" [liveToken] liveToken 7
    (by decide) (by decide) (by decide) (by decide) (by decide) (by decide)
    (by decide) (by decide) (by decide) (by decide)

theorem guard_scoping_witness :
    resultError (authenticate crossGuardWorld) = some .invalidAuthSession :=
  guard_scoping crossGuardWorld freshSession "s1.v1" "s1" "v1" [liveToken] liveToken
    (by decide) (by decide) (by decide) (by decide) (by decide) (by decide)
    (by decide) (by decide) (by decide)

theorem token_expiry_witness :
    resultError (authenticate expiredTokenWorld) = some .invalidAuthSession ∧
    (∀ t, getTokenBySeries [expiredToken] "s1" expiredTokenWorld.now = some t →
      expiredTokenWorld.now < t.expiresAt) :=
  token_expiry expiredTokenWorld freshSession "s1.v1" "s1" "v1" [expiredToken] expiredToken
    (by decide) (by decide) (by decide) (by decide) (by decide) (by decide)
    (by decide) (by decide)

theorem logout_frame_witness :
    ∃ w1, logout tokenWorld = .ok ((), w1) ∧
      w1.guard = tokenWorld.guard ∧
      w1.session = some (freshSession.forget (sessionKeyName tokenWorld.guard.name)) ∧
      ((∃ series store, logoutDeleteSeries tokenWorld = some series ∧
          tokenWorld.tokenStore = some store ∧
          w1.tokenStore = some (deleteTokenBySeries store series) ∧
          w1.trace = tokenWorld.trace ++ [.sessionForget (sessionKeyName tokenWorld.guard.name),
            .clearCookie (rememberMeKeyName tokenWorld.guard.name),
            .emit (.loggedOut tokenWorld.guard.user freshSession.sessionId),
            .readCookie (rememberMeKeyName tokenWorld.guard.name) tokenWorld.requestCookie,
            .providerDeleteTokenBySeries series]) ∨
        (logoutDeleteSeries tokenWorld = none ∧ w1.tokenStore = tokenWorld.tokenStore ∧
          w1.trace = tokenWorld.trace ++ [.sessionForget (sessionKeyName tokenWorld.guard.name),
            .clearCookie (rememberMeKeyName tokenWorld.guard.name),
            .emit (.loggedOut tokenWorld.guard.user freshSession.sessionId),
            .readCookie (rememberMeKeyName tokenWorld.guard.name) tokenWorld.requestCookie])) :=
  logout_frame tokenWorld freshSession (by decide)

end SessionAuth
